import Mathlib

/-!
Shallow embedding of the Non-Conformance reporting dashboard core
(`app.py`, `src/kpi_cards.py`): the canonical ticket record, the global
filter chain of `main`, the status tally (`value_counts`), the open-NC
whitelist selection, the status-by-priority groupby summary, the KPI-card
percentage guard, and the current-week detail view with its ambient clock
read.  Timestamps are minutes since the epoch; `pd.to_datetime(...,
errors="coerce")` results are `Option Nat` (with `none` for `NaT`), and
missing categorical cells are `none`.
-/

namespace NCDash

/-- Minutes in one calendar day; `.dt.date` truncation is division by this. -/
def minutesPerDay : Nat := 1440

/-- Calendar-date truncation of a minute timestamp (pandas `.dt.date`). -/
def toDate (ts : Nat) : Nat := ts / minutesPerDay

/-- One row of the NC table after loading: categorical and date cells may be
missing (`none`), mirroring NaN/NaT cells in the dataframe. -/
structure Ticket where
  ncNumber : String
  submittedAt : Option Nat
  status : Option String
  priority : Option String
  externalOrInternal : Option String
  customer : Option String
  issueType : Option String
  costOfRework : Int
  costAvoided : Int
  totalQuantityAffected : Nat
deriving DecidableEq, Repr

/-- The sidebar filter configuration of `app.py main`: an optional inclusive
date range (as calendar dates) and three selectbox values where the string
"All" means the filter is inactive, exactly as in the source. -/
structure FilterOptions where
  dateRange : Option (Nat × Nat)
  extIntFilter : String
  statusFilter : String
  priorityFilter : String
deriving DecidableEq

/-- The filter configuration with every option unset (date picker absent,
every selectbox on "All"). -/
def allFilters : FilterOptions := ⟨none, "All", "All", "All"⟩

/-- The date-range mask of `app.py` lines 183-186: a row passes when its
(coerced) `Date Submitted`, truncated to a date, lies inclusively between the
two bounds; a `NaT` date compares false on both sides. -/
def datePass (dr : Nat × Nat) (t : Ticket) : Bool :=
  match t.submittedAt with
  | some ts => decide (dr.1 ≤ toDate ts) && decide (toDate ts ≤ dr.2)
  | none => false

/-- Stage 1 of the filter chain (`if date_range and len(date_range) == 2`). -/
def dateStage (p : FilterOptions) (df : List Ticket) : List Ticket :=
  match p.dateRange with
  | some dr => df.filter (datePass dr)
  | none => df

/-- Stage 2: `if ext_int_filter != "All"` keep rows whose column equals the
selection (a NaN cell never equals a string, hence `some`). -/
def extIntStage (p : FilterOptions) (df : List Ticket) : List Ticket :=
  if p.extIntFilter ≠ "All" then
    df.filter (fun t => t.externalOrInternal == some p.extIntFilter)
  else df

/-- Stage 3: the `Status` selectbox filter. -/
def statusStage (p : FilterOptions) (df : List Ticket) : List Ticket :=
  if p.statusFilter ≠ "All" then
    df.filter (fun t => t.status == some p.statusFilter)
  else df

/-- Stage 4: the `Priority` selectbox filter. -/
def priorityStage (p : FilterOptions) (df : List Ticket) : List Ticket :=
  if p.priorityFilter ≠ "All" then
    df.filter (fun t => t.priority == some p.priorityFilter)
  else df

/-- The full sequential filter application of `app.py` lines 176-199. -/
def applyFilters (p : FilterOptions) (df : List Ticket) : List Ticket :=
  priorityStage p (statusStage p (extIntStage p (dateStage p df)))

/-- The date predicate as a per-row condition (true when no range is set). -/
def datePred (p : FilterOptions) (t : Ticket) : Bool :=
  match p.dateRange with
  | some dr => datePass dr t
  | none => true

/-- The External/Internal predicate as a per-row condition. -/
def extIntPred (p : FilterOptions) (t : Ticket) : Bool :=
  p.extIntFilter == "All" || t.externalOrInternal == some p.extIntFilter

/-- The Status predicate as a per-row condition. -/
def statusPred (p : FilterOptions) (t : Ticket) : Bool :=
  p.statusFilter == "All" || t.status == some p.statusFilter

/-- The Priority predicate as a per-row condition. -/
def priorityPred (p : FilterOptions) (t : Ticket) : Bool :=
  p.priorityFilter == "All" || t.priority == some p.priorityFilter

/-- Conjunction of the four per-row predicates. -/
def conjPred (p : FilterOptions) (t : Ticket) : Bool :=
  datePred p t && extIntPred p t && statusPred p t && priorityPred p t

/-- Number of occurrences of a value in a list of cells. -/
def countOf (xs : List String) (v : String) : Nat :=
  (xs.filter (fun x => x == v)).length

/-- Distinct values in order of first occurrence (`List.dedup` keeps the
last occurrence, so reverse on both sides). -/
def dedupFirst {α : Type} [DecidableEq α] (l : List α) : List α :=
  (l.reverse.dedup).reverse

/-- Descending-count comparison used to order a tally. -/
def countGe (a b : String × Nat) : Prop := b.2 ≤ a.2

instance : DecidableRel countGe := fun a b => by
  unfold countGe; exact inferInstance

instance : IsTotal (String × Nat) countGe :=
  ⟨fun a b => (Nat.le_total b.2 a.2).imp (fun h => h) (fun h => h)⟩

instance : IsTrans (String × Nat) countGe :=
  ⟨fun _ _ _ hab hbc => Nat.le_trans hbc hab⟩

/-- Pandas `Series.value_counts()`: NaN cells are dropped, each remaining
distinct value is paired with its multiplicity, and the pairs are sorted by
descending count (stable on ties). -/
def valueCounts (xs : List (Option String)) : List (String × Nat) :=
  let vals := xs.filterMap id
  List.insertionSort countGe ((dedupFirst vals).map (fun v => (v, countOf vals v)))

/-- The `Status` column of a record set. -/
def statuses (df : List Ticket) : List (Option String) := df.map Ticket.status

/-- The status tally `df["Status"].value_counts()` of the tracker view. -/
def statusValueCounts (df : List Ticket) : List (String × Nat) :=
  valueCounts (statuses df)

/-- The KPI card row of `render_open_nc_status_tracker` lines 54-58: iterate
`status_counts.items()` with index and keep entries whose index is below 5. -/
def statusCardRow (df : List Ticket) : List (String × Nat) :=
  ((statusValueCounts df).enum.filter (fun p => decide (p.1 < 5))).map Prod.snd

/-- The open-status whitelist of `kpi_cards.py` line 136. -/
def open_statuses : List String :=
  ["Open", "In Progress", "Pending Review", "On Hold"]

/-- Membership test `df["Status"].isin(open_statuses)`; a NaN status is never
a member. -/
def isOpenStatus (s : Option String) : Bool :=
  match s with
  | some v => open_statuses.contains v
  | none => false

/-- The open-NC selection `df[df["Status"].isin(open_statuses)]`. -/
def openNcs (df : List Ticket) : List Ticket :=
  df.filter (fun t => isOpenStatus t.status)

/-- Rows carrying both group keys: pandas `groupby` drops any row in which a
grouping key is NaN. -/
def keyedRows (df : List Ticket) : List ((String × String) × Ticket) :=
  df.filterMap (fun t =>
    match t.status, t.priority with
    | some s, some p => some ((s, p), t)
    | _, _ => none)

/-- Strict codepoint-lexicographic comparison of char lists, written by
structural recursion so that the kernel can evaluate it. -/
def charListLt : List Char → List Char → Bool
  | [], [] => false
  | [], _ :: _ => true
  | _ :: _, [] => false
  | a :: as, b :: bs =>
    if a < b then true else if b < a then false else charListLt as bs

theorem charListLt_iff : ∀ as bs : List Char,
    charListLt as bs = true ↔ List.Lex (· < ·) as bs := by
  intro as
  induction as with
  | nil =>
    intro bs
    cases bs with
    | nil => simp [charListLt]
    | cons b bs => simp [charListLt]; exact List.Lex.nil
  | cons a as ih =>
    intro bs
    cases bs with
    | nil => simp [charListLt]
    | cons b bs =>
      by_cases hab : a < b
      · simp only [charListLt, if_pos hab, true_iff]
        exact List.Lex.rel hab
      · by_cases hba : b < a
        · simp only [charListLt, if_neg hab, if_pos hba, Bool.false_eq_true,
            false_iff]
          intro h
          cases h with
          | cons h2 => exact lt_irrefl _ hba
          | rel h2 => exact hab h2
        · have heq : a = b := le_antisymm (not_lt.mp hba) (not_lt.mp hab)
          subst heq
          simp only [charListLt, if_neg hab, if_neg hba, ih bs]
          exact (List.Lex.cons_iff).symm

/-- Python string `<` (codepoint lexicographic), kernel-computable. -/
def strLtB (a b : String) : Bool := charListLt a.data b.data

theorem strLtB_iff (a b : String) : strLtB a b = true ↔ a < b := by
  rw [String.lt_iff_toList_lt]
  show charListLt a.data b.data = true ↔ List.Lex (· < ·) a.data b.data
  exact charListLt_iff a.data b.data

/-- Python string `<=`, kernel-computable. -/
def strLeB (a b : String) : Bool := strLtB a b || a == b

theorem strLeB_iff (a b : String) : strLeB a b = true ↔ a ≤ b := by
  rw [strLeB, le_iff_lt_or_eq]
  simp [strLtB_iff, beq_iff_eq]

/-- Lexicographic order on a (Status, Priority) key pair, the ascending key
order of pandas `groupby(sort=True)`. -/
def keyLe (a b : String × String) : Bool :=
  strLtB a.1 b.1 || (a.1 == b.1 && strLeB a.2 b.2)

/-- The key order as a relation, for sorting. -/
def keyLeR (a b : String × String) : Prop := keyLe a b = true

theorem keyLeR_iff (a b : String × String) :
    keyLeR a b ↔ a.1 < b.1 ∨ (a.1 = b.1 ∧ a.2 ≤ b.2) := by
  simp [keyLeR, keyLe, strLtB_iff, strLeB_iff, beq_iff_eq]

instance : DecidableRel keyLeR := fun a b => by
  unfold keyLeR; exact inferInstance

instance : IsTotal (String × String) keyLeR := by
  constructor
  intro a b
  rw [keyLeR_iff, keyLeR_iff]
  rcases lt_trichotomy a.1 b.1 with h | h | h
  · exact Or.inl (Or.inl h)
  · rcases le_total a.2 b.2 with h2 | h2
    · exact Or.inl (Or.inr ⟨h, h2⟩)
    · exact Or.inr (Or.inr ⟨h.symm, h2⟩)
  · exact Or.inr (Or.inl h)

instance : IsTrans (String × String) keyLeR := by
  constructor
  intro a b c hab hbc
  rw [keyLeR_iff] at hab hbc ⊢
  rcases hab with h1 | ⟨e1, l1⟩
  · rcases hbc with h2 | ⟨e2, l2⟩
    · exact Or.inl (lt_trans h1 h2)
    · exact Or.inl (e2 ▸ h1)
  · rcases hbc with h2 | ⟨e2, l2⟩
    · exact Or.inl (e1 ▸ h2)
    · exact Or.inr ⟨e1.trans e2, le_trans l1 l2⟩

/-- One row of the Open NCs summary table (`summary_df`): the group key and
the aggregates count / sum of `Cost of Rework` / sum of
`Total Quantity Affected`. -/
structure SummaryRow where
  status : String
  priority : String
  count : Nat
  totalReworkCost : Int
  totalQtyAffected : Nat
deriving DecidableEq, Repr

/-- The groupby aggregation of `kpi_cards.py` lines 210-215:
`open_ncs.groupby(["Status", "Priority"]).agg(count, sum, sum)`, with group
keys emitted in ascending lexicographic order (pandas default `sort=True`). -/
def summaryRows (df : List Ticket) : List SummaryRow :=
  let rows := keyedRows df
  let keys := List.insertionSort keyLeR (dedupFirst (rows.map Prod.fst))
  keys.map (fun k =>
    let grp := (rows.filter (fun r => r.1 == k)).map Prod.snd
    ⟨k.1, k.2, grp.length, (grp.map Ticket.costOfRework).sum,
      (grp.map Ticket.totalQuantityAffected).sum⟩)

/-- Abstraction of what `render_open_nc_status_tracker` shows: the empty
guard of lines 34-36, or the derived tables behind the rendered widgets. -/
inductive TrackerView where
  | noData : TrackerView
  | report : List (String × Nat) → List SummaryRow → TrackerView
deriving DecidableEq

/-- The tracker view: warn and return on an empty frame, otherwise render
the KPI card row and the open-NC summary table. -/
def render_open_nc_status_tracker (df : List Ticket) : TrackerView :=
  if df.isEmpty then TrackerView.noData
  else TrackerView.report (statusCardRow df) (summaryRows (openNcs df))

/-- The percentage computed by `render_status_kpi_card`:
`(count / total) * 100 if total > 0 else 0`. -/
def render_status_kpi_card_pct (count total : Nat) : Rat :=
  if 0 < total then (count : Rat) / (total : Rat) * 100 else 0

/-- What the card actually reports for the ratio: always a numeric value
(the rendered string is always of the form "x.y% of total"). -/
def codeGuardedPct (count total : Nat) : Option Rat :=
  some (render_status_kpi_card_pct count total)

/-- The spec's wording of the same report, for refinement comparison: a
zero-denominator ratio is the distinguished undefined sentinel (`none`),
never a number. -/
def specGuardedPct (count total : Nat) : Option Rat :=
  if total = 0 then none else some ((count : Rat) / (total : Rat) * 100)

/-- Process-global ambient state visible to the views: the wall clock read
by `datetime.now()` (in minutes) and the Streamlit session state used by
`app.py`. -/
structure AmbientState where
  now : Nat
  sessionState : List (String × String)
deriving DecidableEq

/-- Python `datetime.weekday()` (Monday = 0) of a minute timestamp; the
epoch day was a Thursday, hence the offset 3. -/
def weekday (ts : Nat) : Nat := (ts / minutesPerDay + 3) % 7

/-- The Monday-midnight week start of `render_current_week_detail_view`
lines 267-269: `today - timedelta(days=today.weekday())` with the time of
day cleared. -/
def current_week_start (now : Nat) : Nat :=
  (now / minutesPerDay - weekday now) * minutesPerDay

/-- The default "Current Week" mask of lines 292-294 and 322: start of the
current week up to now, inclusive, at full timestamp resolution. -/
def inCurrentWeek (now : Nat) (t : Ticket) : Bool :=
  match t.submittedAt with
  | some ts => decide (current_week_start now ≤ ts) && decide (ts ≤ now)
  | none => false

/-- Lines 321-323: drop rows with NaT `Date Submitted`, then apply the
period mask. -/
def currentWeekRows (a : AmbientState) (df : List Ticket) : List Ticket :=
  (df.filter (fun t => t.submittedAt.isSome)).filter (inCurrentWeek a.now)

/-- Abstraction of what `render_current_week_detail_view` shows for the
default "Current Week" period: the empty-frame guard of lines 258-260, the
empty-period guard of lines 332-334, or the selected rows. -/
inductive WeekDetailView where
  | noData : WeekDetailView
  | emptyPeriod : WeekDetailView
  | report : List Ticket → WeekDetailView
deriving DecidableEq

/-- The current-week detail view; `a` is the ambient process state whose
clock the source reads via `datetime.now()` inside the function body. -/
def render_current_week_detail_view (a : AmbientState) (df : List Ticket) :
    WeekDetailView :=
  if df.isEmpty then WeekDetailView.noData
  else
    let wk := currentWeekRows a df
    if wk.isEmpty then WeekDetailView.emptyPeriod
    else WeekDetailView.report wk

/-! Concrete records used by counterexamples and witnesses. -/

/-- A ticket whose status is an unrecognized value (not "Closed"). -/
def tEscalated : Ticket :=
  ⟨"NC-100", some 29400000, some "Escalated", some "High", some "External",
    some "Acme", some "Scratch", 10, 0, 1⟩

/-- A ticket whose status cell is missing (NaN). -/
def tNoStatus : Ticket :=
  ⟨"NC-200", some 29400000, none, some "Low", some "Internal",
    none, none, 0, 0, 0⟩

/-- One open ticket with status "In Progress". -/
def tInProgress : Ticket :=
  ⟨"NC-301", some 29400000, some "In Progress", some "High", some "External",
    some "Acme", some "Dent", 100, 0, 5⟩

/-- First of two open tickets with status "Open". -/
def tOpenA : Ticket :=
  ⟨"NC-302", some 29400100, some "Open", some "Low", some "Internal",
    some "Beta", some "Dent", 30, 0, 2⟩

/-- Second of two open tickets with status "Open". -/
def tOpenB : Ticket :=
  ⟨"NC-303", some 29400200, some "Open", some "Low", some "Internal",
    some "Beta", some "Dent", 40, 0, 3⟩

/-- A ticket with an absent / unparseable Date Submitted. -/
def tNoDate : Ticket :=
  ⟨"NC-400", none, some "Open", some "High", some "External",
    none, none, 5, 0, 1⟩

/-- An ambient process state whose clock falls in the same week as
`tEscalated.submittedAt`. -/
def ambientA : AmbientState := ⟨29400000, []⟩

/-- An ambient process state whose clock is about 69 days later. -/
def ambientB : AmbientState := ⟨29500000, [("week_detail_period", "Current Week")]⟩

/-! Helper lemmas about the filter stages. -/

theorem dateStage_eq_filter (p : FilterOptions) (df : List Ticket) :
    dateStage p df = df.filter (datePred p) := by
  rcases p with ⟨dr, e, s, pr⟩
  cases dr with
  | none => exact (List.filter_true df).symm
  | some d => rfl

theorem extIntStage_eq_filter (p : FilterOptions) (df : List Ticket) :
    extIntStage p df = df.filter (extIntPred p) := by
  unfold extIntStage extIntPred
  by_cases h : p.extIntFilter = "All"
  · simp [h]
  · simp only [h, not_false_iff, if_pos, ne_eq, not_false_eq_true, if_true]
    apply (List.filter_congr ?_).symm
    intro t _
    have : (p.extIntFilter == "All") = false := by
      simpa using h
    rw [this, Bool.false_or]

theorem statusStage_eq_filter (p : FilterOptions) (df : List Ticket) :
    statusStage p df = df.filter (statusPred p) := by
  unfold statusStage statusPred
  by_cases h : p.statusFilter = "All"
  · simp [h]
  · simp only [h, not_false_iff, if_pos, ne_eq, not_false_eq_true, if_true]
    apply (List.filter_congr ?_).symm
    intro t _
    have : (p.statusFilter == "All") = false := by
      simpa using h
    rw [this, Bool.false_or]

theorem priorityStage_eq_filter (p : FilterOptions) (df : List Ticket) :
    priorityStage p df = df.filter (priorityPred p) := by
  unfold priorityStage priorityPred
  by_cases h : p.priorityFilter = "All"
  · simp [h]
  · simp only [h, not_false_iff, if_pos, ne_eq, not_false_eq_true, if_true]
    apply (List.filter_congr ?_).symm
    intro t _
    have : (p.priorityFilter == "All") = false := by
      simpa using h
    rw [this, Bool.false_or]

theorem applyFilters_eq_filter (p : FilterOptions) (df : List Ticket) :
    applyFilters p df = df.filter (conjPred p) := by
  unfold applyFilters
  rw [dateStage_eq_filter, extIntStage_eq_filter, statusStage_eq_filter,
    priorityStage_eq_filter, List.filter_filter, List.filter_filter,
    List.filter_filter]
  apply List.filter_congr
  intro t _
  unfold conjPred
  cases datePred p t <;> cases extIntPred p t <;> cases statusPred p t <;>
    cases priorityPred p t <;> rfl

theorem conjPred_allFilters (t : Ticket) : conjPred allFilters t = true := by
  rfl

/-! Helper lemmas about the tally. -/

theorem countOf_eq_count (xs : List String) (v : String) :
    countOf xs v = xs.count v := by
  show (xs.filter (fun x => x == v)).length = List.countP (fun x => x == v) xs
  exact (List.countP_eq_length_filter _ _).symm

theorem sum_dedupFirst_count (xs : List String) :
    ((dedupFirst xs).map (fun v => countOf xs v)).sum = xs.length := by
  unfold dedupFirst
  rw [List.map_reverse, List.sum_reverse]
  calc ((xs.reverse.dedup).map (fun v => countOf xs v)).sum
      = ((xs.reverse.dedup).map (fun v => List.count v xs.reverse)).sum := by
        refine congrArg List.sum (List.map_congr_left ?_)
        intro v _
        rw [countOf_eq_count, List.count_reverse]
    _ = xs.reverse.length := List.sum_map_count_dedup_eq_length xs.reverse
    _ = xs.length := List.length_reverse xs

theorem length_filterMap_status (df : List Ticket) :
    (df.filterMap Ticket.status).length
      = (df.filter (fun t => t.status.isSome)).length := by
  induction df with
  | nil => rfl
  | cons t df ih =>
    cases h : t.status <;>
      simp [List.filterMap_cons, List.filter_cons, h, ih]

theorem statusValueCounts_sum (df : List Ticket) :
    ((statusValueCounts df).map Prod.snd).sum
      = (df.filter (fun t => t.status.isSome)).length := by
  unfold statusValueCounts valueCounts statuses
  have hvals : (df.map Ticket.status).filterMap id = df.filterMap Ticket.status := by
    rw [List.filterMap_map]
    rfl
  rw [hvals]
  set vals := df.filterMap Ticket.status with hv
  have hperm :
      (List.insertionSort countGe
        ((dedupFirst vals).map (fun v => (v, countOf vals v)))).Perm
      ((dedupFirst vals).map (fun v => (v, countOf vals v))) :=
    List.perm_insertionSort _ _
  rw [(hperm.map Prod.snd).sum_eq, List.map_map]
  have : (Prod.snd ∘ fun v => (v, countOf vals v)) = fun v => countOf vals v := rfl
  rw [this, sum_dedupFirst_count, ← length_filterMap_status]

/-! Helper lemma about the indexed card-row loop. -/

theorem enumFrom_filter_lt_nil {α : Type} :
    ∀ (l : List α) (i j : Nat), j ≤ i →
      (List.enumFrom i l).filter (fun p => decide (p.1 < j)) = [] := by
  intro l
  induction l with
  | nil => intro i j _; rfl
  | cons x l ih =>
    intro i j h
    have h1 : (decide ((i, x).1 < j)) = false := by
      simp [Nat.not_lt.mpr h]
    simp only [List.enumFrom, List.filter_cons, h1, Bool.false_eq_true,
      if_false]
    exact ih (i + 1) j (Nat.le_succ_of_le h)

theorem enumFrom_filter_lt {α : Type} :
    ∀ (l : List α) (i n : Nat),
      ((List.enumFrom i l).filter (fun p => decide (p.1 < i + n))).map Prod.snd
        = l.take n := by
  intro l
  induction l with
  | nil => intro i n; simp
  | cons x l ih =>
    intro i n
    cases n with
    | zero =>
      rw [Nat.add_zero, enumFrom_filter_lt_nil (x :: l) i i (Nat.le_refl i)]
      rfl
    | succ m =>
      simp only [List.enumFrom, List.filter_cons]
      have h1 : decide (i < i + (m + 1)) = true := by
        simp [Nat.lt_add_of_pos_right]
      rw [h1]
      simp only [if_pos]
      have h2 : (fun p : Nat × α => decide (p.1 < i + (m + 1)))
          = (fun p : Nat × α => decide (p.1 < (i + 1) + m)) := by
        funext p
        have : i + (m + 1) = (i + 1) + m := by omega
        rw [this]
      rw [List.map_cons, h2, ih (i + 1) m]
      rfl

theorem statusCardRow_eq_take (df : List Ticket) :
    statusCardRow df = (statusValueCounts df).take 5 := by
  unfold statusCardRow
  have h : (fun p : Nat × (String × Nat) => decide (p.1 < 5))
      = (fun p : Nat × (String × Nat) => decide (p.1 < 0 + 5)) := by
    funext p
    rw [Nat.zero_add]
  rw [List.enum, h]
  exact enumFrom_filter_lt (statusValueCounts df) 0 5

/-! Claim theorems. -/

/-- Claim C1, counterexample: the open-class selection of
`render_open_nc_status_tracker` is the fixed whitelist
`["Open", "In Progress", "Pending Review", "On Hold"]`, not "everything
except Closed".  A ticket with the unrecognized status "Escalated" is not
"Closed", yet selecting the open-class subset silently drops it, refuting
the claim that no ticket with a status other than "Closed" is dropped. -/
theorem C1_unrecognized_status_dropped :
    tEscalated.status ≠ some "Closed" ∧ openNcs [tEscalated] = [] := by
  exact ⟨by decide, by decide⟩

/-- Claim C1, amended: a ticket is selected as open-class iff its status is
one of the four whitelisted values; on the known status domain (the
whitelist plus "Closed") this coincides with "status other than Closed",
but unrecognized or missing statuses are excluded (silently dropped), not
counted as open-class. -/
theorem C1_open_class_is_whitelist :
    (∀ (df : List Ticket) (t : Ticket),
        t ∈ openNcs df ↔ t ∈ df ∧ isOpenStatus t.status = true)
    ∧ ((open_statuses ++ ["Closed"]).all
        (fun s => isOpenStatus (some s) == !(s == "Closed"))) = true := by
  constructor
  · intro df t
    exact List.mem_filter
  · decide

/-- Claim C2: the global filter of `app.py main` is the identity when every
option is unset (no date range, every selectbox on "All"), and for any
options the output is never longer than the input. -/
theorem C2_filter_identity_and_bound :
    (∀ df : List Ticket, applyFilters allFilters df = df)
    ∧ ∀ (p : FilterOptions) (df : List Ticket),
        (applyFilters p df).length ≤ df.length := by
  constructor
  · intro df
    rw [applyFilters_eq_filter]
    exact List.filter_eq_self.mpr (fun t _ => conjPred_allFilters t)
  · intro p df
    rw [applyFilters_eq_filter]
    exact List.length_filter_le _ _

/-- Claim C3, counterexample: `value_counts()` drops NaN statuses and the
tracker has no "Unspecified" bucket, so on a record set with one
missing-status ticket the tally counts sum to 0, not to `len(df) = 1`:
the tally does not partition the full set. -/
theorem C3_missing_status_breaks_partition :
    ((statusValueCounts [tNoStatus]).map Prod.snd).sum = 0
    ∧ [tNoStatus].length = 1
    ∧ ((statusValueCounts [tNoStatus]).map Prod.snd).sum ≠ [tNoStatus].length := by
  exact ⟨by decide, by decide, by decide⟩

/-- Claim C3, amended: the status tally maps each distinct present status to
its cardinality, and the counts sum to the number of records whose status is
present (missing statuses are dropped by `value_counts`, not bucketed), a
number at most `len(R)` and equal to it only when no status is missing. -/
theorem C3_tally_counts_present_statuses :
    ∀ df : List Ticket,
      ((statusValueCounts df).map Prod.snd).sum
          = (df.filter (fun t => t.status.isSome)).length
      ∧ ((statusValueCounts df).map Prod.snd).sum ≤ df.length := by
  intro df
  have h := statusValueCounts_sum df
  exact ⟨h, h ▸ List.length_filter_le _ _⟩

/-- Claim C4, counterexample: the status-by-priority summary of
`render_open_nc_status_tracker` comes from pandas `groupby`, which orders
groups ascending by key, not by descending count.  With one "In Progress"
ticket and two "Open" tickets the emitted counts are `[1, 2]`: the first
row has the smaller count, refuting descending-count order. -/
theorem C4_summary_not_count_ordered :
    (summaryRows (openNcs [tInProgress, tOpenA, tOpenB])).map SummaryRow.count
        = [1, 2]
    ∧ 1 < 2 := by
  exact ⟨by decide, by decide⟩

/-- Claim C4, amended: the summary rows (count, summed rework cost, summed
quantity per group) are ordered ascending lexicographically by the
(Status, Priority) key — pandas `groupby(sort=True)` — not by descending
count; each row's aggregates are computed over exactly the rows carrying
its key (rows missing either key are excluded by `groupby`). -/
theorem C4_summary_key_ordered :
    ∀ df : List Ticket,
      List.Sorted keyLeR ((summaryRows df).map (fun r => (r.status, r.priority)))
      ∧ ∀ r ∈ summaryRows df,
          r.count
              = ((keyedRows df).filter
                  (fun q => q.1 == (r.status, r.priority))).length
          ∧ r.totalReworkCost
              = (((keyedRows df).filter
                  (fun q => q.1 == (r.status, r.priority))).map
                    (fun q => q.2.costOfRework)).sum := by
  intro df
  constructor
  · unfold summaryRows
    rw [List.map_map]
    have hcomp :
        ((fun r : SummaryRow => (r.status, r.priority)) ∘
          (fun k : String × String =>
            (⟨k.1, k.2,
              (((keyedRows df).filter (fun r => r.1 == k)).map Prod.snd).length,
              ((((keyedRows df).filter (fun r => r.1 == k)).map Prod.snd).map
                Ticket.costOfRework).sum,
              ((((keyedRows df).filter (fun r => r.1 == k)).map Prod.snd).map
                Ticket.totalQuantityAffected).sum⟩ : SummaryRow)))
          = fun k : String × String => k := by
      funext k
      rfl
    rw [hcomp]
    have hid : (List.insertionSort keyLeR
          (dedupFirst ((keyedRows df).map Prod.fst))).map
            (fun k : String × String => k)
        = List.insertionSort keyLeR (dedupFirst ((keyedRows df).map Prod.fst)) := by
      rw [show (fun k : String × String => k) = @id (String × String) from rfl,
        List.map_id]
    rw [hid]
    exact List.sorted_insertionSort keyLeR _
  · intro r hr
    unfold summaryRows at hr
    rcases List.mem_map.mp hr with ⟨k, _, hk⟩
    subst hk
    constructor
    · simp [List.length_map]
    · simp [List.map_map]
      rfl

/-- Witness for C4 amended: the per-row aggregation part applied to the
one-ticket record set `[tInProgress]` and its single summary row. -/
theorem C4_summary_key_ordered_witness :
    (⟨"In Progress", "High", 1, 100, 5⟩ : SummaryRow).count
        = ((keyedRows [tInProgress]).filter
            (fun q => q.1 == ("In Progress", "High"))).length
    ∧ (⟨"In Progress", "High", 1, 100, 5⟩ : SummaryRow).totalReworkCost
        = (((keyedRows [tInProgress]).filter
            (fun q => q.1 == ("In Progress", "High"))).map
              (fun q => q.2.costOfRework)).sum :=
  (C4_summary_key_ordered [tInProgress]).2
    ⟨"In Progress", "High", 1, 100, 5⟩ (by decide)

/-- Claim C5: with an active date range a ticket passes iff its coerced
submission timestamp, truncated to a calendar date, lies inclusively
between the bounds; a ticket with absent or unparseable Date Submitted
fails every active date-bound predicate, and the date stage is the identity
when no date bound is set. -/
theorem C5_date_bound_semantics :
    (∀ (dr : Nat × Nat) (t : Ticket) (ts : Nat), t.submittedAt = some ts →
        (datePass dr t = true ↔ (dr.1 ≤ toDate ts ∧ toDate ts ≤ dr.2)))
    ∧ (∀ (dr : Nat × Nat) (t : Ticket), t.submittedAt = none →
        datePass dr t = false)
    ∧ (∀ (p : FilterOptions) (df : List Ticket), p.dateRange = none →
        dateStage p df = df) := by
  refine ⟨?_, ?_, ?_⟩
  · intro dr t ts h
    unfold datePass
    rw [h]
    simp
  · intro dr t h
    unfold datePass
    rw [h]
  · intro p df h
    unfold dateStage
    rw [h]

/-- Witness for C5: the three parts of `C5_date_bound_semantics`
instantiated at concrete tickets and bounds. -/
theorem C5_date_bound_semantics_witness :
    (datePass (20408, 20420) tEscalated = true
        ↔ (20408 ≤ toDate 29400000 ∧ toDate 29400000 ≤ 20420))
    ∧ datePass (20408, 20420) tNoDate = false
    ∧ dateStage allFilters [tNoDate] = [tNoDate] :=
  ⟨C5_date_bound_semantics.1 (20408, 20420) tEscalated 29400000 rfl,
   C5_date_bound_semantics.2.1 (20408, 20420) tNoDate rfl,
   C5_date_bound_semantics.2.2 allFilters [tNoDate] rfl⟩

/-- Claim C6, counterexample: `render_status_kpi_card` guards the
zero-total case with `else 0`, so the reported value at a zero denominator
is the plain number 0 — not the undefined/"N/A" sentinel the claim
requires (the spec-side report is `none` there, and the two disagree). -/
theorem C6_zero_total_reports_zero :
    codeGuardedPct 7 0 = some 0
    ∧ specGuardedPct 7 0 = none
    ∧ codeGuardedPct 7 0 ≠ specGuardedPct 7 0 := by
  exact ⟨by decide, by decide, by decide⟩

/-- Claim C6, amended: the zero-denominator case is guarded — no division
by zero is performed and no fault is raised — but the guard reports the
numeric value 0 rather than an "N/A" sentinel; on every positive total the
code and the spec sentinel report agree. -/
theorem C6_zero_total_guard :
    (∀ count : Nat, render_status_kpi_card_pct count 0 = 0)
    ∧ (∀ count total : Nat, 0 < total →
        render_status_kpi_card_pct count total
            = (count : Rat) / (total : Rat) * 100
        ∧ codeGuardedPct count total = specGuardedPct count total) := by
  constructor
  · intro count
    rfl
  · intro count total h
    have hne : total ≠ 0 := Nat.pos_iff_ne_zero.mp h
    constructor
    · unfold render_status_kpi_card_pct
      rw [if_pos h]
    · unfold codeGuardedPct specGuardedPct render_status_kpi_card_pct
      rw [if_pos h, if_neg hne]

/-- Witness for C6 amended, instantiated at count 7, total 3. -/
theorem C6_zero_total_guard_witness :
    render_status_kpi_card_pct 7 3 = (7 : Rat) / (3 : Rat) * 100
    ∧ codeGuardedPct 7 3 = specGuardedPct 7 3 :=
  C6_zero_total_guard.2 7 3 (by decide)

/-- Claim C7, counterexample: `render_current_week_detail_view` takes only
the record set from its caller and reads "now" via `datetime.now()` inside
its body; with the record set fixed, two ambient process states with
different clocks produce different outputs, so the computation is not a
function of the injected inputs alone — "now" is read from ambient
process-global state, not passed as an explicit parameter. -/
theorem C7_ambient_clock_read :
    render_current_week_detail_view ambientA [tEscalated]
        = WeekDetailView.report [tEscalated]
    ∧ render_current_week_detail_view ambientB [tEscalated]
        = WeekDetailView.emptyPeriod
    ∧ render_current_week_detail_view ambientA [tEscalated]
        ≠ render_current_week_detail_view ambientB [tEscalated] := by
  exact ⟨by decide, by decide, by decide⟩

/-- Claim C7, amended: the current-week view reads "now" from the ambient
process clock inside the computation; it depends on the ambient state only
through that clock (fixing the clock value and the record set determines
the output), and the selected rows are exactly the tickets whose parseable
timestamp lies in the inclusive window from the Monday week start to now. -/
theorem C7_clock_determines_view :
    (∀ (a a' : AmbientState) (df : List Ticket), a.now = a'.now →
        render_current_week_detail_view a df
          = render_current_week_detail_view a' df)
    ∧ (∀ (a : AmbientState) (t : Ticket) (df : List Ticket),
        t ∈ currentWeekRows a df
          ↔ t ∈ df ∧ ∃ ts, t.submittedAt = some ts
              ∧ current_week_start a.now ≤ ts ∧ ts ≤ a.now) := by
  constructor
  · intro a a' df h
    unfold render_current_week_detail_view currentWeekRows
    rw [h]
  · intro a t df
    constructor
    · intro h
      rcases List.mem_filter.mp h with ⟨h1, h2⟩
      rcases List.mem_filter.mp h1 with ⟨h3, h4⟩
      cases hsub : t.submittedAt with
      | none =>
        rw [hsub] at h4
        simp at h4
      | some ts =>
        refine ⟨h3, ts, rfl, ?_⟩
        unfold inCurrentWeek at h2
        rw [hsub] at h2
        simp at h2
        exact h2
    · rintro ⟨hmem, ts, hsub, hlo, hhi⟩
      apply List.mem_filter.mpr
      refine ⟨List.mem_filter.mpr ⟨hmem, by rw [hsub]; rfl⟩, ?_⟩
      unfold inCurrentWeek
      rw [hsub]
      simp [hlo, hhi]

/-- Witness for C7 amended: the clock-determinism part applied to two
ambient states sharing the clock value but differing in session state, and
the window part applied to a concrete ticket. -/
theorem C7_clock_determines_view_witness :
    render_current_week_detail_view ambientA [tEscalated]
        = render_current_week_detail_view ⟨29400000, [("k", "v")]⟩ [tEscalated]
    ∧ (tEscalated ∈ currentWeekRows ambientA [tEscalated]
        ↔ tEscalated ∈ [tEscalated]
            ∧ ∃ ts, tEscalated.submittedAt = some ts
                ∧ current_week_start ambientA.now ≤ ts ∧ ts ≤ ambientA.now) :=
  ⟨C7_clock_determines_view.1 ambientA ⟨29400000, [("k", "v")]⟩ [tEscalated] rfl,
   C7_clock_determines_view.2 ambientA tEscalated [tEscalated]⟩

/-- Claim C8: the four global filters compose by logical AND — the output
is exactly the input filtered by the conjunction of the active per-row
predicates — and the output is a sublist of the input, preserving input
order. -/
theorem C8_conjunction_and_order :
    ∀ (p : FilterOptions) (df : List Ticket),
      applyFilters p df = df.filter (fun t => conjPred p t)
      ∧ List.Sublist (applyFilters p df) df := by
  intro p df
  refine ⟨applyFilters_eq_filter p df, ?_⟩
  rw [applyFilters_eq_filter]
  exact List.filter_sublist df

/-- Claim C9: every aggregator, given zero input rows, yields an empty
output sequence or the explicit empty view, and (being a total function)
never fails: the tracker returns its no-data view, the tally, open-NC
selection, groupby summary and week filter all return empty lists, the
week detail view returns its no-data view for any ambient state, and the
filter engine returns an empty list for any predicate options. -/
theorem C9_empty_input_empty_output :
    render_open_nc_status_tracker [] = TrackerView.noData
    ∧ statusValueCounts [] = []
    ∧ openNcs [] = []
    ∧ summaryRows [] = []
    ∧ (∀ a : AmbientState, currentWeekRows a [] = []
        ∧ render_current_week_detail_view a [] = WeekDetailView.noData)
    ∧ (∀ p : FilterOptions, applyFilters p [] = []) := by
  refine ⟨rfl, rfl, rfl, rfl, fun a => ⟨rfl, rfl⟩, fun p => ?_⟩
  rw [applyFilters_eq_filter]
  rfl

/-- Claim C10: the KPI card row shows exactly the first five entries of the
status tally — which is sorted by descending count, so these are the five
highest-count statuses — hence at most five statuses appear and every
status beyond the fifth tally position is omitted from the card row. -/
theorem C10_card_row_top5 :
    ∀ df : List Ticket,
      statusCardRow df = (statusValueCounts df).take 5
      ∧ (statusCardRow df).length ≤ 5
      ∧ List.Sorted countGe (statusValueCounts df) := by
  intro df
  have h1 := statusCardRow_eq_take df
  refine ⟨h1, ?_, ?_⟩
  · rw [h1, List.length_take]
    exact min_le_left _ _
  · unfold statusValueCounts valueCounts
    exact List.sorted_insertionSort countGe _

end NCDash
